import Mathlib

/-!
Verification development for the mastodon-webhooks repository.

The definitions below are a shallow embedding of the TypeScript sources:
`src/mastodon.ts` / `src/mastodon-types.ts` (data model and stream handling),
`src/webhooks.ts` (routing), `src/webhook.ts` (Discord formatting and
delivery) and `src/server.ts` (gap recovery).  Status ids are numeric
strings compared via `BigInt` in the source; they are modelled as `Nat`.
External effects (the `turndown` HTML-to-markdown converter, the avatar
colour lookup, the HTTP fetch outcome, the database tables) are passed in
as explicit parameters / values.
-/

namespace MastodonWebhooks

/-- `Account` (src/mastodon-types.ts): the fields the core pipeline reads. -/
structure Account where
  id : String
  acct : String
  display_name : String
  locked : Bool
  avatar : String
  url : String
  deriving Repr, DecidableEq

/-- Attachment type: the source only distinguishes `a.type === 'image'`. -/
inductive MediaType where
  | image
  | other
  deriving Repr, DecidableEq

/-- `MediaAttachmentImage` (src/mastodon-types.ts); `width`/`height` model
`meta.original.width` / `meta.original.height`. -/
structure MediaAttachment where
  type : MediaType
  url : String
  width : Nat
  height : Nat
  deriving Repr, DecidableEq

/-- One entry of `Status.mentions`: the pipeline only reads `m.id`. -/
structure Mention where
  id : String
  deriving Repr, DecidableEq

/-- `Status.visibility` (src/mastodon-types.ts). -/
inductive Visibility where
  | pub
  | unlisted
  | priv
  | direct
  deriving Repr, DecidableEq

/-- The non-recursive fields of `Status` (src/mastodon-types.ts) that the
core pipeline reads.  `url : Option String` models `url: string | null`;
the empty string is falsy in JS and the embedding keeps that check. -/
structure StatusData where
  id : Nat
  created_at : String
  in_reply_to_id : Option Nat
  in_reply_to_account_id : Option String
  sensitive : Bool
  spoiler_text : String
  visibility : Visibility
  uri : String
  url : Option String
  content : String
  account : Account
  media_attachments : List MediaAttachment
  mentions : List Mention
  deriving Repr, DecidableEq

/-- `Status` (src/mastodon-types.ts): `reblog : Status | null` makes the type
recursive, modelled as a nested inductive. -/
inductive Status where
  | mk (data : StatusData) (reblog : Option Status)

def Status.data : Status → StatusData
  | .mk d _ => d

def Status.reblog : Status → Option Status
  | .mk _ r => r

def Status.id (s : Status) : Nat := s.data.id
def Status.account (s : Status) : Account := s.data.account
def Status.visibility (s : Status) : Visibility := s.data.visibility
def Status.mentions (s : Status) : List Mention := s.data.mentions

/-- Depth of the reblog chain: the viewed status plus the nested reposts. -/
def Status.chainDepth : Status → Nat
  | .mk _ none => 1
  | .mk _ (some r) => 1 + r.chainDepth

/-- The statuses of the reblog chain, outermost (the viewed status) first. -/
def Status.chain : Status → List StatusData
  | .mk d none => [d]
  | .mk d (some r) => d :: r.chain

/-! ### String helpers

JS string operations used by the source, modelled on `List Char`. -/

/-- `needle` occurs at the start of `hay` (helper for substring search). -/
def startsWithChars : List Char → List Char → Bool
  | _, [] => true
  | [], _ :: _ => false
  | c :: cs, d :: ds => c == d && startsWithChars cs ds

/-- `hay` contains `needle` as a contiguous subsequence. -/
def containsSubstring : List Char → List Char → Bool
  | [], needle => needle.isEmpty
  | l@(_ :: t), needle => startsWithChars l needle || containsSubstring t needle

/-- JS `s.includes(sub)`. -/
def strIncludes (s sub : String) : Bool := containsSubstring s.toList sub.toList

/-- A character matched by the class `[0-9a-z-_]` under the `i` flag:
digits, ASCII letters of either case, `-` and `_`. -/
def isShortcodeChar (c : Char) : Bool :=
  ('0' ≤ c && c ≤ '9') || ('a' ≤ c && c ≤ 'z') || ('A' ≤ c && c ≤ 'Z') || c == '-' || c == '_'

/-- JS `name.replace(/:[0-9a-z-_]+:/gi, '')`: remove every `:shortcode:`
token, scanning left to right.  At a `:` the match, if any, is `:` followed
by the maximal nonempty run of class characters followed by `:` (the class
excludes `:`, so no shorter run can be followed by `:`).  The fuel starts at
the list length; every recursive call is on a strictly shorter list, so the
fuel never runs out. -/
def stripShortcodesGo : Nat → List Char → List Char
  | _, [] => []
  | 0, l => l
  | fuel + 1, c :: rest =>
    if c = ':' then
      let run := rest.takeWhile isShortcodeChar
      let t := rest.drop run.length
      if !run.isEmpty && t.head? == some ':' then
        stripShortcodesGo fuel t.tail
      else
        c :: stripShortcodesGo fuel rest
    else
      c :: stripShortcodesGo fuel rest

def stripShortcodes (s : String) : String :=
  (stripShortcodesGo s.toList.length s.toList).asString

/-- A character matched by JS `\s` (for inputs in the ASCII range). -/
def jsIsSpace (c : Char) : Bool :=
  c == ' ' || c == '\t' || c == '\n' || c == '\r' || c == '\x0b' || c == '\x0c'

/-- JS `s.replace(/\s+/g, ' ')`: every run of whitespace becomes one space. -/
def collapseWsChars : List Char → List Char
  | [] => []
  | [c] => if jsIsSpace c then [' '] else [c]
  | c :: d :: rest =>
    if jsIsSpace c then
      if jsIsSpace d then collapseWsChars (d :: rest)
      else ' ' :: collapseWsChars (d :: rest)
    else c :: collapseWsChars (d :: rest)

/-- JS `s.trim()` (for whitespace in the ASCII range). -/
def jsTrimChars (l : List Char) : List Char :=
  ((l.dropWhile jsIsSpace).reverse.dropWhile jsIsSpace).reverse

/-- The display-name sanitization from
`StatusWebhookExecutorDiscord.formatPayload` (src/webhook.ts):
`display_name.replace(/:[0-9a-z-_]+:/gi, '').replace(/\s+/g, ' ').trim()`. -/
def sanitizeDisplayName (name : String) : String :=
  (jsTrimChars (collapseWsChars (stripShortcodes name).toList)).asString

/-- Handle canonicalization used by the routing engine and the formatter:
`acct.includes('@') ? acct : acct + '@' + acct_host`. -/
def canonAcct (acct acct_host : String) : String :=
  if strIncludes acct "@" then acct else acct ++ "@" ++ acct_host

/-- Host extraction (src/webhooks.ts):
`acct.includes('@') ? acct.substr(acct.lastIndexOf('@') + 1) : acct_host`;
the text after the last `@` is the longest suffix free of `@`. -/
def acctHostOf (acct acct_host : String) : String :=
  if strIncludes acct "@" then
    ((acct.toList.reverse.takeWhile fun c => c != '@').reverse).asString
  else acct_host

/-! ### Discord formatter (`StatusWebhookExecutorDiscord.formatPayload`,
src/webhook.ts lines 77-156)

The `turndown` HTML-to-markdown converter and the async avatar colour
lookup (`getAccountColour`) are external; they are passed as parameters. -/

structure EmbedAuthor where
  name : String
  icon_url : String
  url : String
  deriving Repr, DecidableEq

structure EmbedImage where
  url : String
  width : Nat
  height : Nat
  deriving Repr, DecidableEq

/-- The `APIEmbed` fields built per chain level; `footer` holds the
`footer.text` string. -/
structure Embed where
  author : EmbedAuthor
  description : String
  url : String
  color : Option Nat
  footer : Option String
  timestamp : String
  image : Option EmbedImage
  deriving Repr, DecidableEq

/-- `turndown(status.content).replace(/^(.+)$/gm, '||$1||')`: wrap every
nonempty line in spoiler bars. -/
def spoilerWrapLines (s : String) : String :=
  String.intercalate "\n"
    ((s.splitOn "\n").map fun line => if line.isEmpty then line else "||" ++ line ++ "||")

/-- The per-level `markdown` value: spoilered statuses show the warning
plainly and the body redacted (`status.spoiler_text` is truthy iff
nonempty). -/
def statusMarkdown (turndown : String → String) (st : StatusData) : String :=
  if st.spoiler_text ≠ "" then
    turndown st.spoiler_text ++ "\n\n" ++ spoilerWrapLines (turndown st.content)
  else
    turndown st.content

/-- `status.media_attachments.find(a => a.type === 'image')`. -/
def findImage (atts : List MediaAttachment) : Option MediaAttachment :=
  atts.find? fun a => a.type == .image

/-- `status.media_attachments.find(a => a.type !== 'image')`. -/
def findNonImage (atts : List MediaAttachment) : Option MediaAttachment :=
  atts.find? fun a => a.type != .image

/-- The `footer_text` conditional chain of `formatPayload`
(src/webhook.ts lines 93-103); `none` models `null`. -/
def footerText (st : StatusData) : Option String :=
  let n := st.media_attachments.length
  if (findNonImage st.media_attachments).isSome then
    some (toString n ++ " attachment" ++ (if n = 1 then "" else "s"))
  else if (st.spoiler_text ≠ "" ∨ st.sensitive) ∧ n ≠ 0 then
    some (toString n ++ " image" ++ (if n = 1 then "" else "s"))
  else if (findImage st.media_attachments).isSome ∧ n > 1 then
    some ("+ " ++ toString (n - 1) ++ " image" ++ (if n = 2 then "" else "s"))
  else
    none

/-- One embed of the Discord payload (the body of the `while` loop). -/
def mkEmbed (turndown : String → String) (colour : Option Nat) (st : StatusData) : Embed :=
  let image := findImage st.media_attachments
  { author := ⟨st.account.display_name, st.account.avatar, st.account.url⟩
    description := statusMarkdown turndown st
    url := st.uri
    color := colour
    footer := footerText st
    timestamp := st.created_at
    image :=
      if st.spoiler_text = "" ∧ st.sensitive = false then
        image.map fun i => ⟨i.url, i.width, i.height⟩
      else none }

/-- The `if (status.url) content += '\n' + status.url` contribution of one
level (the empty string is falsy in JS). -/
def contentPart (st : StatusData) : String :=
  match st.url with
  | some u => if u.isEmpty then "" else "\n" ++ u
  | none => ""

/-- The chain walk of `formatPayload`: the `while (status)` loop pushes one
embed per level and then moves to `status.reblog`, so on the (acyclic)
values of the `Status` type it is structural recursion on the chain. -/
def formatChain (turndown : String → String) (colour : Account → Option Nat) :
    Status → List Embed × String
  | .mk d reblog =>
    let embed := mkEmbed turndown (colour d.account) d
    match reblog with
    | none => ([embed], contentPart d)
    | some r =>
      let rest := formatChain turndown colour r
      (embed :: rest.1, contentPart d ++ rest.2)

/-- The full Discord message built by
`StatusWebhookExecutorDiscord.formatPayload`. -/
structure DiscordMessage where
  username : String
  avatar_url : String
  content : String
  embeds : List Embed
  deriving Repr, DecidableEq

def formatPayload (turndown : String → String) (colour : Account → Option Nat)
    (account_host : String) (s : Status) : DiscordMessage :=
  let walk := formatChain turndown colour s
  let status_acct := canonAcct s.account.acct account_host
  let username0 := sanitizeDisplayName s.account.display_name ++ " - @" ++ status_acct
  let username :=
    if strIncludes username0 "discord" then
      if strIncludes status_acct "discord" then "???" else "@" ++ status_acct
    else username0
  ⟨username, s.account.avatar, walk.2, walk.1⟩

/-! ### Pointer-level model of the chain walk

The inductive `Status` type can only represent acyclic reblog chains (as
can the JSON the statuses are parsed from).  To settle what the `while`
loop does on a malformed, cyclic object graph, the loop is restated over a
heap of status records whose `reblog` field is a reference by id. -/

/-- A status object at the pointer level: `reblog_ref` is a reference into
a heap of status objects. -/
structure StatusRef where
  data : StatusData
  reblog_ref : Option Nat
  deriving Repr, DecidableEq

/-- The `while (status)` loop of `formatPayload` on the pointer model, one
iteration per fuel unit.  `none` means the fuel was exhausted with the loop
still running; the loop itself has no bound and no visited-id guard. -/
def formatChainLoop (turndown : String → String) (colour : Account → Option Nat)
    (heap : Nat → Option StatusRef) :
    Nat → Option StatusRef → List Embed × String → Option (List Embed × String)
  | _, none, acc => some acc
  | 0, some _, _ => none
  | fuel + 1, some r, acc =>
    formatChainLoop turndown colour heap fuel (r.reblog_ref.bind heap)
      (acc.1 ++ [mkEmbed turndown (colour r.data.account) r.data], acc.2 ++ contentPart r.data)

/-! ### Routing engine (`WebhookManager`, src/webhooks.ts) -/

/-- `WebhookType` (src/webhook.ts). -/
inductive WebhookType where
  | mastodon
  | discord
  deriving Repr, DecidableEq

/-- A row of the `webhooks` table / a `Webhook` value (src/webhook.ts).
Config-defined endpoints are emitted with `id = -1`, so ids are `Int`. -/
structure Webhook where
  id : Int
  type : WebhookType
  url : String
  deriving Repr, DecidableEq

/-- One entry of `webhooks.yaml` (`ConfigWebhook`, src/webhooks.ts).
`acct?: string | string[]` is normalized by the source to an array
(`typeof acct === 'string' ? [acct] : acct ?? []`); the embedding stores
that normalized list, likewise for `host`. -/
structure ConfigWebhook where
  url : String
  type : Option WebhookType
  acct : List String
  host : List String
  deriving Repr, DecidableEq

structure ConfigData where
  webhooks : List ConfigWebhook
  deriving Repr, DecidableEq

/-- A row of `webhook_filter_acct`. -/
structure FilterRuleAcct where
  id : Int
  webhook_id : Int
  acct : String
  deriving Repr, DecidableEq

/-- A row of `webhook_filter_host`. -/
structure FilterRuleHost where
  id : Int
  webhook_id : Int
  host : String
  deriving Repr, DecidableEq

/-- The persisted filter store: the three tables read by
`getWebhooksForStatus`. -/
structure Db where
  webhooks : List Webhook
  webhook_filter_acct : List FilterRuleAcct
  webhook_filter_host : List FilterRuleHost
  deriving Repr, DecidableEq

/-- `db.get(sql'SELECT id,type,url FROM webhooks WHERE id = ...')`: the
first row with the given id, if any. -/
def Db.get (db : Db) (i : Int) : Option Webhook :=
  db.webhooks.find? fun w => w.id == i

/-- `WebhookManager.checkWebhookMatchesStatus` (src/webhooks.ts lines
66-76): acct-equality against the webhook's acct list, then host-equality
against its host list. -/
def checkWebhookMatchesStatus (w : ConfigWebhook) (acct host : String) : Bool :=
  w.acct.any (fun filter_acct => filter_acct == acct) ||
  w.host.any (fun filter_host => filter_host == host)

/-- Insertion into a JS `Set` keeps first-insertion order and ignores
duplicates. -/
def insertUniqueInt (l : List Int) (x : Int) : List Int :=
  if x ∈ l then l else l ++ [x]

/-- The contents of `new Set()` after adding the elements of `xs` in
order. -/
def jsSetOfList (xs : List Int) : List Int :=
  xs.foldl insertUniqueInt []

/-- `WebhookManager.getWebhooksForStatus` (src/webhooks.ts lines 26-64):
config-defined endpoints matching the status, then the endpoints of
matching acct/host filter rows, deduplicated by webhook id via a `Set`. -/
def getWebhooksForStatus (config : Option ConfigData) (db : Db) (s : Status)
    (acct_host : String) : List Webhook :=
  let status_acct := canonAcct s.account.acct acct_host
  let status_acct_host := acctHostOf s.account.acct acct_host
  let config_ws :=
    ((config.map ConfigData.webhooks).getD []).filterMap fun w =>
      if checkWebhookMatchesStatus w status_acct status_acct_host then
        some ⟨-1, w.type.getD .mastodon, w.url⟩
      else none
  let ids := jsSetOfList
    ((db.webhook_filter_acct.filter fun r => r.acct == status_acct).map FilterRuleAcct.webhook_id ++
     (db.webhook_filter_host.filter fun r => r.host == status_acct_host).map FilterRuleHost.webhook_id)
  config_ws ++ ids.filterMap db.get

/-! ### Stream handling (`MastodonStream`, src/mastodon.ts) -/

def Status.in_reply_to_id (s : Status) : Option Nat := s.data.in_reply_to_id
def Status.in_reply_to_account_id (s : Status) : Option String := s.data.in_reply_to_account_id

/-- `!!(this.account_id && status.mentions.find(m => m.id === this.account_id))`. -/
def mentionsWebhooksUser (account_id : Option String) (s : Status) : Bool :=
  match account_id with
  | none => false
  | some aid => (s.mentions.find? fun m => m.id == aid).isSome

/-- `MastodonStream.isStatusDiscoverable`: public, not itself a reblog, and
either not a reply or a reply to the author's own account. -/
def isStatusDiscoverable (s : Status) : Bool :=
  if s.visibility != .pub then false
  else if s.reblog.isSome then false
  else if s.in_reply_to_id.isSome && s.in_reply_to_account_id != some s.account.id then false
  else true

/-- The stream's mutable cursor (`last_status_id : string | null`). -/
structure StreamState where
  last_status_id : Option Nat
  deriving Repr, DecidableEq

/-- What one `handleStatus` call did: the cursor afterwards and the
webhooks the status was routed to (empty when the status was discarded
before routing). -/
structure HandleResult where
  state : StreamState
  routed : List Webhook
  deriving Repr, DecidableEq

/-- `MastodonStream.handleStatus` (src/mastodon.ts lines 111-138 of the
current revision): the followers-only gate, the public-duplicate gate, then
the unconditional cursor overwrite and routing. -/
def handleStatus (config : Option ConfigData) (db : Db) (account_host : String)
    (account_id : Option String) (state : StreamState) (s : Status)
    (skip_public : Bool) : HandleResult :=
  if s.visibility == .priv && s.account.locked && !mentionsWebhooksUser account_id s then
    ⟨state, []⟩
  else if skip_public && s.visibility == .pub && isStatusDiscoverable s then
    ⟨state, []⟩
  else
    ⟨⟨some s.id⟩, getWebhooksForStatus config db s account_host⟩

/-- The `skip_public` argument computed by
`MastodonStreamWebSocket.handleMessage` for an `update` frame:
`!data.stream.includes('public') && this.streams.includes('public')`. -/
def wsSkipPublic (frame_streams subscribed_streams : List String) : Bool :=
  !frame_streams.contains "public" && subscribed_streams.contains "public"

/-- Feeding a sequence of live statuses through `handleStatus`, threading
the cursor. -/
def handleStatusSeq (config : Option ConfigData) (db : Db) (account_host : String)
    (account_id : Option String) : StreamState → List Status → StreamState
  | state, [] => state
  | state, s :: rest =>
    handleStatusSeq config db account_host account_id
      (handleStatus config db account_host account_id state s false).state rest

/-! ### Gap recovery (src/mastodon.ts `getTimelineStatusesSince` and
src/server.ts `main` lines 130-160) -/

/-- Insertion sort by numeric id, ascending: the effect of
`statuses.sort((a, b) => Number(BigInt(a.id) - BigInt(b.id)))`. -/
def insertById (s : Status) : List Status → List Status
  | [] => [s]
  | t :: ts => if s.id ≤ t.id then s :: t :: ts else t :: insertById s ts

def sortById : List Status → List Status
  | [] => []
  | s :: ss => insertById s (sortById ss)

/-- `MastodonApi.getTimelineStatusesSince` (src/mastodon.ts lines 49-64):
repeatedly fetch the timeline with `min_id` = the cursor, sort the page
ascending by id, yield each status advancing the cursor to its id, and
stop on an empty page.  `server` maps a `min_id` to the page the server
returns; the result is the yielded statuses and the final cursor, `none` if
the fuel ran out before an empty page arrived. -/
def getTimelineStatusesSince (server : Nat → List Status) :
    Nat → Nat → Option (List Status × Nat)
  | 0, _ => none
  | fuel + 1, last_status_id =>
    let statuses := sortById (server last_status_id)
    if statuses.isEmpty then
      some ([], last_status_id)
    else
      let last2 := statuses.foldl (fun _ st => st.id) last_status_id
      match getTimelineStatusesSince server fuel last2 with
      | none => none
      | some (rest, fin) => some (statuses ++ rest, fin)

/-- What the catch-up block of `main` (src/server.ts lines 130-160) did:
the in-memory `state.last_status_id` afterwards, which statuses were routed
to which endpoints, and whether control went on to create the live stream
(the statement after the loop). -/
structure RecoveryResult where
  cursor : Option Nat
  routed : List (Nat × List Webhook)
  live_stream_started : Bool
  deriving Repr, DecidableEq

/-- The `for await` catch-up loop of `main` over the already-yielded missed
statuses.  A followers-only status from a locked account not mentioning the
bot hits a `return` statement, which exits `main` itself: no further status
is processed and the live stream is never created. -/
def recoveryLoop (config : Option ConfigData) (db : Db) (account_host : String)
    (account_id : Option String) : Option Nat → List Status → RecoveryResult
  | cursor, [] => ⟨cursor, [], true⟩
  | cursor, s :: rest =>
    if s.visibility == .priv && s.account.locked && !mentionsWebhooksUser account_id s then
      ⟨cursor, [], false⟩
    else
      let ws := getWebhooksForStatus config db s account_host
      let r := recoveryLoop config db account_host account_id (some s.id) rest
      ⟨r.cursor, (s.id, ws) :: r.routed, r.live_stream_started⟩

/-! ### Delivery client (`StatusWebhookExecutor.send`, src/webhook.ts lines
48-67, and `WebhookManager.executeWebhookForStatus`, src/webhooks.ts lines
78-86) -/

/-- The outcome of the single `fetch` call of `send`: an HTTP response
(`ok` = any 2xx status) or a rejected promise (network error). -/
inductive FetchOutcome where
  | response (ok : Bool) (statusCode : Nat) (body : String)
  | netError (msg : String)
  deriving Repr, DecidableEq

/-- What one `send` call did: how many `fetch` calls it made, what it
queued for a later retry, and the response body it logged on failure. -/
structure SendRecord where
  fetch_calls : Nat
  queued : List String
  logged_failure_body : Option String
  deriving Repr, DecidableEq

/-- `StatusWebhookExecutor.send`: one POST; on `!response.ok` the body is
read and logged, nothing is retried or queued and nothing is thrown; a
rejected `fetch` propagates as an error. -/
def send (outcome : FetchOutcome) : Except String SendRecord :=
  match outcome with
  | .netError msg => .error msg
  | .response ok _ body => .ok ⟨1, [], if ok then none else some body⟩

/-- `executeStatusWebhook` (src/webhook.ts lines 25-34): logs errors and
rethrows them. -/
def executeStatusWebhook (outcome : FetchOutcome) : Except String SendRecord :=
  match send outcome with
  | .error e => .error e
  | .ok r => .ok r

/-- `WebhookManager.executeWebhookForStatus`: `try { ... } catch (err) {}`
— every delivery error is swallowed. -/
def executeWebhookForStatus (outcome : FetchOutcome) : Except String Unit :=
  match executeStatusWebhook outcome with
  | .error _ => .ok ()
  | .ok _ => .ok ()

/-- The delivery fan-out of `handleStatus`: each matched webhook gets its
own `executeWebhookForStatus` call; `outcome` gives each endpoint's own
HTTP result. -/
def deliverToAll (webhooks : List Webhook) (outcome : Webhook → FetchOutcome) :
    List (Webhook × Except String Unit) :=
  webhooks.map fun w => (w, executeWebhookForStatus (outcome w))

/-! ### Concrete fixtures for witnesses and counterexamples -/

def plainAccount : Account :=
  ⟨"a1", "alice", "Alice", false, "https://files.example/avatar.png", "https://social.example/@alice"⟩

/-- A plain public status with the given id. -/
def simpleStatus (i : Nat) : Status :=
  .mk { id := i, created_at := "", in_reply_to_id := none, in_reply_to_account_id := none,
        sensitive := false, spoiler_text := "", visibility := .pub, uri := "", url := none,
        content := "", account := plainAccount, media_attachments := [], mentions := [] } none

def lockedAccount : Account :=
  ⟨"a2", "carol", "Carol", true, "", ""⟩

/-- A followers-only status from a locked account, mentioning nobody. -/
def lockedStatus (i : Nat) : Status :=
  .mk { id := i, created_at := "", in_reply_to_id := none, in_reply_to_account_id := none,
        sensitive := false, spoiler_text := "", visibility := .priv, uri := "", url := none,
        content := "", account := lockedAccount, media_attachments := [], mentions := [] } none

def emptyDb : Db := ⟨[], [], []⟩

def cycAccount : Account := ⟨"c1", "mallory", "Mallory", false, "", ""⟩

def cycData : StatusData :=
  { id := 1, created_at := "", in_reply_to_id := none, in_reply_to_account_id := none,
    sensitive := false, spoiler_text := "", visibility := .pub, uri := "", url := none,
    content := "", account := cycAccount, media_attachments := [], mentions := [] }

/-- A malformed status object whose `reblog` field refers back to itself. -/
def cycRef : StatusRef := ⟨cycData, some 1⟩

/-- The heap holding just the self-referential status. -/
def cycHeap : Nat → Option StatusRef := fun i => if i = 1 then some cycRef else none

/-- A public status that is itself a reblog of `simpleStatus 7`. -/
def reblogStatus (i : Nat) : Status :=
  .mk { id := i, created_at := "", in_reply_to_id := none, in_reply_to_account_id := none,
        sensitive := false, spoiler_text := "", visibility := .pub, uri := "", url := none,
        content := "", account := plainAccount, media_attachments := [], mentions := [] }
    (some (simpleStatus 7))

/-- `lockedStatus` with a mention of the bot account `bot9`. -/
def lockedMentionStatus (i : Nat) : Status :=
  .mk { id := i, created_at := "", in_reply_to_id := none, in_reply_to_account_id := none,
        sensitive := false, spoiler_text := "", visibility := .priv, uri := "", url := none,
        content := "", account := lockedAccount, media_attachments := [],
        mentions := [⟨"bot9"⟩] } none

/-- The timeline server of the C5 scenario: asked with `min_id = 100` it
returns ids 101-103 out of order; any later page is empty. -/
def gapServer : Nat → List Status := fun min_id =>
  if min_id == 100 then [simpleStatus 103, simpleStatus 101, simpleStatus 102] else []

def attOther : MediaAttachment := ⟨.other, "https://files.example/clip.mp4", 0, 0⟩

def attImage (n : Nat) : MediaAttachment :=
  ⟨.image, "https://files.example/img" ++ toString n ++ ".png", 640, 480⟩

/-- A public status carrying the given sensitivity, spoiler text and
attachments. -/
def mediaStatus (sensitive : Bool) (spoiler : String) (atts : List MediaAttachment) :
    StatusData :=
  { id := 20, created_at := "", in_reply_to_id := none, in_reply_to_account_id := none,
    sensitive := sensitive, spoiler_text := spoiler, visibility := .pub, uri := "",
    url := none, content := "", account := plainAccount, media_attachments := atts,
    mentions := [] }

/-- A persisted Discord endpoint matched by both rule kinds in the C7
witness. -/
def dualRuleWebhook : Webhook := ⟨7, .discord, "https://hooks.example/7"⟩

/-- A filter store where webhook 7 is matched both by an acct rule and a
host rule for `remoteStatus`. -/
def dualRuleDb : Db :=
  ⟨[dualRuleWebhook],
   [⟨1, 7, "alice@social.example"⟩],
   [⟨2, 7, "social.example"⟩]⟩

def remoteAccount : Account := ⟨"a5", "alice@social.example", "Alice", false, "", ""⟩

def remoteStatus : Status :=
  .mk { id := 30, created_at := "", in_reply_to_id := none, in_reply_to_account_id := none,
        sensitive := false, spoiler_text := "", visibility := .pub, uri := "", url := none,
        content := "", account := remoteAccount, media_attachments := [], mentions := [] }
    none

/-- An account whose display name carries emoji shortcodes and repeated
whitespace. -/
def emojiAccount : Account := ⟨"a6", "sam", " :wave: Sam   Smith ", false, "", ""⟩

def emojiStatus : Status :=
  .mk { id := 40, created_at := "", in_reply_to_id := none, in_reply_to_account_id := none,
        sensitive := false, spoiler_text := "", visibility := .pub, uri := "", url := none,
        content := "", account := emojiAccount, media_attachments := [], mentions := [] }
    none

/-- An account whose handle itself contains "discord". -/
def discordishAccount : Account := ⟨"a7", "bot@discord.example", "Bot", false, "", ""⟩

def discordishStatus : Status :=
  .mk { id := 41, created_at := "", in_reply_to_id := none, in_reply_to_account_id := none,
        sensitive := false, spoiler_text := "", visibility := .pub, uri := "", url := none,
        content := "", account := discordishAccount, media_attachments := [], mentions := [] }
    none

/-! ## Theorems -/

theorem Status.chain_length : ∀ s : Status, s.chain.length = s.chainDepth
  | .mk _ none => by simp [Status.chain, Status.chainDepth]
  | .mk _ (some r) => by
      have ih := Status.chain_length r
      simp [Status.chain, Status.chainDepth, ih, Nat.add_comm]

/-! ### C1: repost chain flattening -/

theorem formatChain_fst (td : String → String) (col : Account → Option Nat) :
    ∀ s : Status, (formatChain td col s).1 = s.chain.map fun d => mkEmbed td (col d.account) d
  | .mk _ none => by simp [formatChain, Status.chain]
  | .mk _ (some r) => by
      have ih := formatChain_fst td col r
      simp [formatChain, Status.chain, ih]

theorem formatChainLoop_cycHeap (td : String → String) (col : Account → Option Nat) :
    ∀ (fuel : Nat) (acc : List Embed × String),
      formatChainLoop td col cycHeap fuel (some cycRef) acc = none := by
  intro fuel
  induction fuel with
  | zero => intro acc; rfl
  | succ n ih =>
      intro acc
      have hstep : cycRef.reblog_ref.bind cycHeap = some cycRef := by rfl
      simp only [formatChainLoop, hstep]
      exact ih _

/-- C1 (counterexample): on the self-referential reblog pointer the
`while (status)` loop of `formatPayload` never finishes — no amount of
iterations reaches a result — so the traversal does not terminate on a
cycle, contrary to the claim. -/
theorem c1_cycle_counterexample :
    ¬ ∃ fuel res,
        formatChainLoop (fun h => h) (fun _ => none) cycHeap fuel (some cycRef) ([], "") =
          some res := by
  rintro ⟨fuel, res, h⟩
  rw [formatChainLoop_cycHeap] at h
  exact Option.noConfusion h

/-- C1 (amended): for every status, `formatPayload` produces one embed per
level of the reblog chain, outermost (the viewed status) first — depth `N`
gives exactly `N` embeds — but the chain walk has no visited-id guard and
no iteration bound, so on a cyclic `reblog` pointer graph the loop never
terminates. -/
theorem c1_amended (td : String → String) (col : Account → Option Nat)
    (host : String) (s : Status) :
    ((formatPayload td col host s).embeds = s.chain.map (fun d => mkEmbed td (col d.account) d) ∧
      (formatPayload td col host s).embeds.length = s.chainDepth) ∧
    (∀ fuel acc, formatChainLoop td col cycHeap fuel (some cycRef) acc = none) := by
  refine ⟨⟨?_, ?_⟩, formatChainLoop_cycHeap td col⟩
  · show (formatChain td col s).1 = _
    exact formatChain_fst td col s
  · show (formatChain td col s).1.length = _
    rw [formatChain_fst td col s, List.length_map, Status.chain_length]

/-! ### C2: the stream cursor -/

/-- C2 (counterexample): the cursor guard in `handleStatus` is commented
out, so the cursor is overwritten with each handled status's id: after
feeding ids `[5, 3]` in that order the stored cursor is `3`, strictly
below its previous value `5` — the cursor does decrease. -/
theorem c2_counterexample :
    (handleStatusSeq none emptyDb "social.example" none ⟨none⟩
        [simpleStatus 5]).last_status_id = some 5 ∧
    (handleStatusSeq none emptyDb "social.example" none ⟨none⟩
        [simpleStatus 5, simpleStatus 3]).last_status_id = some 3 ∧
    (3 : Nat) < 5 := by
  refine ⟨by decide, by decide, by decide⟩

/-- C2 (amended): `handleStatus` stores each handled status's id in
`last_status_id` unconditionally, so the cursor follows arrival order and
can decrease: feeding ids `[5, 3, 9]` passes through cursor values `5`,
then `3`, then `9`; the run ends at `9` because `9` arrives last, not
because a maximum is kept. -/
theorem c2_amended :
    (handleStatusSeq none emptyDb "social.example" none ⟨none⟩
        [simpleStatus 5]).last_status_id = some 5 ∧
    (handleStatusSeq none emptyDb "social.example" none ⟨none⟩
        [simpleStatus 5, simpleStatus 3]).last_status_id = some 3 ∧
    (handleStatusSeq none emptyDb "social.example" none ⟨none⟩
        [simpleStatus 5, simpleStatus 3, simpleStatus 9]).last_status_id = some 9 ∧
    (∀ (config : Option ConfigData) (db : Db) (host : String) (aid : Option String)
        (state : StreamState) (i : Nat),
      (handleStatus config db host aid state (simpleStatus i) false).state.last_status_id =
        some i) := by
  refine ⟨by decide, by decide, by decide, ?_⟩
  intro config db host aid state i
  rfl

/-! ### C3: public-duplicate suppression on multiplexed sub-channels -/

/-- C3: when an `update` frame arrives on a non-public sub-channel while a
public sub-channel is subscribed, a public status classified as
discoverable is discarded (no endpoint, cursor untouched); a public status
that is a reblog, or a reply to another account, is not discarded by this
rule and is routed normally. -/
theorem c3_public_duplicate_gate (config : Option ConfigData) (db : Db) (host : String)
    (aid : Option String) (state : StreamState) (frame subscribed : List String)
    (s : Status)
    (hframe : frame.contains "public" = false)
    (hsubs : subscribed.contains "public" = true)
    (hpub : s.visibility = .pub) :
    (isStatusDiscoverable s = true →
      handleStatus config db host aid state s (wsSkipPublic frame subscribed) =
        ⟨state, []⟩) ∧
    (s.reblog.isSome = true →
      handleStatus config db host aid state s (wsSkipPublic frame subscribed) =
        ⟨⟨some s.id⟩, getWebhooksForStatus config db s host⟩) ∧
    (s.in_reply_to_id.isSome = true → s.in_reply_to_account_id ≠ some s.account.id →
      handleStatus config db host aid state s (wsSkipPublic frame subscribed) =
        ⟨⟨some s.id⟩, getWebhooksForStatus config db s host⟩) := by
  have hskip : wsSkipPublic frame subscribed = true := by
    unfold wsSkipPublic
    rw [hframe, hsubs]
    rfl
  refine ⟨?_, ?_, ?_⟩
  · intro hdisc
    simp [handleStatus, hskip, hpub, hdisc]
  · intro hreb
    have hdisc : isStatusDiscoverable s = false := by
      simp [isStatusDiscoverable, hpub, hreb]
    simp [handleStatus, hskip, hpub, hdisc]
  · intro hrep hrepacc
    have hdisc : isStatusDiscoverable s = false := by
      cases hreb : s.reblog.isSome with
      | true => simp [isStatusDiscoverable, hpub, hreb]
      | false => simp [isStatusDiscoverable, hpub, hreb, hrep, bne_iff_ne, hrepacc]
    simp [handleStatus, hskip, hpub, hdisc]

/-- C3 (witness): concrete runs of both halves of
`c3_public_duplicate_gate`. -/
theorem c3_public_duplicate_gate_witness :
    handleStatus none emptyDb "social.example" none ⟨some 4⟩ (simpleStatus 8)
        (wsSkipPublic ["user"] ["user", "public"]) = ⟨⟨some 4⟩, []⟩ ∧
    handleStatus none emptyDb "social.example" none ⟨some 4⟩ (reblogStatus 9)
        (wsSkipPublic ["user"] ["user", "public"]) =
      ⟨⟨some 9⟩, getWebhooksForStatus none emptyDb (reblogStatus 9) "social.example"⟩ := by
  constructor
  · exact (c3_public_duplicate_gate none emptyDb "social.example" none ⟨some 4⟩
      ["user"] ["user", "public"] (simpleStatus 8) (by decide) (by decide) rfl).1 (by decide)
  · exact (c3_public_duplicate_gate none emptyDb "social.example" none ⟨some 4⟩
      ["user"] ["user", "public"] (reblogStatus 9) (by decide) (by decide) rfl).2.1 rfl

/-! ### C4: the followers-only gate -/

/-- C4: a `private` status from a locked account that does not mention the
bot's account id is routed to no endpoint; the same status with such a
mention is routed normally. -/
theorem c4_followers_only_gate (config : Option ConfigData) (db : Db) (host : String)
    (state : StreamState) (skip : Bool) (bot_id : String) (s : Status)
    (hv : s.visibility = .priv) (hl : s.account.locked = true) :
    (mentionsWebhooksUser (some bot_id) s = false →
      handleStatus config db host (some bot_id) state s skip = ⟨state, []⟩) ∧
    (mentionsWebhooksUser (some bot_id) s = true →
      handleStatus config db host (some bot_id) state s skip =
        ⟨⟨some s.id⟩, getWebhooksForStatus config db s host⟩) := by
  refine ⟨?_, ?_⟩
  · intro hm
    simp [handleStatus, hv, hl, hm]
  · intro hm
    simp [handleStatus, hv, hl, hm]

/-- C4 (witness): concrete runs of both halves of
`c4_followers_only_gate`. -/
theorem c4_followers_only_gate_witness :
    handleStatus none emptyDb "social.example" (some "bot9") ⟨some 10⟩
        (lockedStatus 11) false = ⟨⟨some 10⟩, []⟩ ∧
    handleStatus none emptyDb "social.example" (some "bot9") ⟨some 10⟩
        (lockedMentionStatus 11) false =
      ⟨⟨some 11⟩, getWebhooksForStatus none emptyDb (lockedMentionStatus 11) "social.example"⟩ := by
  constructor
  · exact (c4_followers_only_gate none emptyDb "social.example" ⟨some 10⟩ false "bot9"
      (lockedStatus 11) rfl rfl).1 (by decide)
  · exact (c4_followers_only_gate none emptyDb "social.example" ⟨some 10⟩ false "bot9"
      (lockedMentionStatus 11) rfl rfl).2 (by decide)

/-! ### C5: gap recovery pagination -/

theorem mem_insertById (s : Status) :
    ∀ (l : List Status) (b : Status), b ∈ insertById s l ↔ b = s ∨ b ∈ l := by
  intro l
  induction l with
  | nil => intro b; simp [insertById]
  | cons t ts ih =>
      intro b
      by_cases h : s.id ≤ t.id
      · simp only [insertById, if_pos h, List.mem_cons]
      · simp only [insertById, if_neg h, List.mem_cons, ih]
        tauto

theorem insertById_pairwise (s : Status) :
    ∀ l : List Status, (l.Pairwise fun a b => a.id ≤ b.id) →
      ((insertById s l).Pairwise fun a b => a.id ≤ b.id) := by
  intro l
  induction l with
  | nil => intro _; simp [insertById]
  | cons t ts ih =>
      intro h
      rw [List.pairwise_cons] at h
      by_cases hle : s.id ≤ t.id
      · rw [insertById, if_pos hle, List.pairwise_cons]
        refine ⟨?_, List.pairwise_cons.mpr h⟩
        intro b hb
        rcases List.mem_cons.mp hb with hbt | hbts
        · exact hbt ▸ hle
        · exact le_trans hle (h.1 b hbts)
      · rw [insertById, if_neg hle, List.pairwise_cons]
        refine ⟨?_, ih h.2⟩
        intro b hb
        rcases (mem_insertById s ts b).mp hb with hbs | hbts
        · exact hbs ▸ le_of_lt (lt_of_not_le hle)
        · exact h.1 b hbts

theorem sortById_pairwise :
    ∀ l : List Status, (sortById l).Pairwise fun a b => a.id ≤ b.id := by
  intro l
  induction l with
  | nil => simp [sortById]
  | cons s ss ih => exact insertById_pairwise s _ ih

/-- C5: resuming from cursor `100` against a server holding ids
101, 102, 103 (served out of order) yields the statuses in ascending id
order, the generator's cursor ends at `103`, the empty follow-up page ends
the pagination (no fuel exhaustion), the catch-up loop routes them in that
order ending with persisted cursor `103` and goes on to start the live
stream; in general every page is re-sorted ascending by id before
iterating. -/
theorem c5_gap_recovery :
    getTimelineStatusesSince gapServer 2 100 =
      some ([simpleStatus 101, simpleStatus 102, simpleStatus 103], 103) ∧
    recoveryLoop none emptyDb "social.example" none (some 100)
        [simpleStatus 101, simpleStatus 102, simpleStatus 103] =
      ⟨some 103, [(101, []), (102, []), (103, [])], true⟩ ∧
    (∀ l : List Status, (sortById l).Pairwise fun a b => a.id ≤ b.id) := by
  exact ⟨rfl, rfl, sortById_pairwise⟩

/-! ### C10: the `return` inside the catch-up loop -/

/-- C10 (counterexample): during gap recovery a followers-only status from
a locked account without a bot mention does stop the whole loop with the
cursor unadvanced and nothing routed, but — contrary to the claim — the
`return` exits `main` itself, so the live stream is never started. -/
theorem c10_counterexample :
    (recoveryLoop none emptyDb "social.example" (some "bot9") (some 100)
        [lockedStatus 102, simpleStatus 103]).live_stream_started = false ∧
    (recoveryLoop none emptyDb "social.example" (some "bot9") (some 100)
        [lockedStatus 102, simpleStatus 103]).cursor = some 100 ∧
    (recoveryLoop none emptyDb "social.example" (some "bot9") (some 100)
        [lockedStatus 102, simpleStatus 103]).routed = [] := by
  refine ⟨by decide, by decide, by decide⟩

/-- C10 (amended): encountering a missed `private` status from a locked
account that does not mention the bot terminates the entire catch-up via
`return`: that status and every later missed status are unrouted, the
in-memory cursor keeps its previous value, and — since the `return` exits
`main` — the live stream is never started. -/
theorem c10_amended (config : Option ConfigData) (db : Db) (host : String)
    (aid : Option String) (cursor : Option Nat) (s : Status) (rest : List Status)
    (hv : s.visibility = .priv) (hl : s.account.locked = true)
    (hm : mentionsWebhooksUser aid s = false) :
    recoveryLoop config db host aid cursor (s :: rest) = ⟨cursor, [], false⟩ := by
  simp [recoveryLoop, hv, hl, hm]

/-- C10 (witness): a concrete run of `c10_amended`. -/
theorem c10_amended_witness :
    recoveryLoop none emptyDb "social.example" (some "bot9") (some 100)
      [lockedStatus 102, simpleStatus 103] = ⟨some 100, [], false⟩ :=
  c10_amended none emptyDb "social.example" (some "bot9") (some 100)
    (lockedStatus 102) [simpleStatus 103] rfl rfl (by decide)

/-! ### C6: attachment footer wording -/

/-- C6 (counterexample): for a non-sensitive, non-spoilered status with 3
image attachments the code writes the footer `"+ 2 images"` — with a space
after the plus sign — not `"+2 images"` as claimed. -/
theorem c6_counterexample :
    footerText (mediaStatus false "" [attImage 1, attImage 2, attImage 3]) =
      some "+ 2 images" ∧
    some "+ 2 images" ≠ (some "+2 images" : Option String) := by
  refine ⟨by decide, by decide⟩

/-- C6 (amended): 1 non-image attachment → "1 attachment"; 2 non-image
attachments → "2 attachments"; a sensitive (or spoilered) status with 1
image → "1 image" and no image preview; a plain status with 3 images →
first image as preview and footer "+ 2 images" (with a space after the
plus); a single plain image → no footer. -/
theorem c6_amended :
    footerText (mediaStatus false "" [attOther]) = some "1 attachment" ∧
    footerText (mediaStatus false "" [attOther, attOther]) = some "2 attachments" ∧
    (footerText (mediaStatus true "" [attImage 1]) = some "1 image" ∧
      (mkEmbed (fun h => h) none (mediaStatus true "" [attImage 1])).image = none) ∧
    (footerText (mediaStatus false "cw" [attImage 1]) = some "1 image" ∧
      (mkEmbed (fun h => h) none (mediaStatus false "cw" [attImage 1])).image = none) ∧
    (footerText (mediaStatus false "" [attImage 1, attImage 2, attImage 3]) =
        some "+ 2 images" ∧
      (mkEmbed (fun h => h) none
          (mediaStatus false "" [attImage 1, attImage 2, attImage 3])).image =
        some ⟨(attImage 1).url, 640, 480⟩) ∧
    footerText (mediaStatus false "" [attImage 1]) = none := by
  exact ⟨by decide, by decide, ⟨by decide, by decide⟩, ⟨by decide, by decide⟩,
    ⟨by decide, by decide⟩, by decide⟩

/-! ### C8: delivery failures are logged, unretried and isolated -/

/-- C8: a non-2xx response makes `send` record the response body for the
log after its single `fetch` call, queue nothing and throw nothing;
`executeWebhookForStatus` swallows every error (including thrown network
errors); and the per-status fan-out attempts every matched endpoint
exactly once regardless of the other endpoints' outcomes. -/
theorem c8_delivery_isolation :
    (∀ (code : Nat) (body : String),
        send (.response false code body) = .ok ⟨1, [], some body⟩) ∧
    (∀ outcome : FetchOutcome, executeWebhookForStatus outcome = .ok ()) ∧
    (∀ (ws : List Webhook) (outcome : Webhook → FetchOutcome),
        (deliverToAll ws outcome).map Prod.fst = ws ∧
        ∀ p ∈ deliverToAll ws outcome, p.2 = .ok ()) := by
  have h2 : ∀ outcome : FetchOutcome, executeWebhookForStatus outcome = .ok () := by
    intro outcome
    cases outcome with
    | response ok code body => rfl
    | netError m => rfl
  refine ⟨fun code body => rfl, h2, ?_⟩
  intro ws outcome
  constructor
  · simp only [deliverToAll, List.map_map]
    exact List.map_id ws
  · intro p hp
    rcases List.mem_map.mp hp with ⟨w, _, rfl⟩
    exact h2 (outcome w)

/-! ### C7: dedup of endpoints matched by both rule kinds -/

theorem mem_insertUniqueInt (acc : List Int) (y x : Int) :
    x ∈ insertUniqueInt acc y ↔ x ∈ acc ∨ x = y := by
  unfold insertUniqueInt
  split
  · rename_i hy
    constructor
    · exact fun h => Or.inl h
    · rintro (h | rfl)
      · exact h
      · exact hy
  · simp [List.mem_append]

theorem mem_foldl_insertUniqueInt :
    ∀ (xs acc : List Int) (x : Int),
      x ∈ xs.foldl insertUniqueInt acc ↔ x ∈ acc ∨ x ∈ xs := by
  intro xs
  induction xs with
  | nil => intro acc x; simp
  | cons y ys ih =>
      intro acc x
      rw [List.foldl_cons, ih, mem_insertUniqueInt]
      simp only [List.mem_cons]
      tauto

theorem mem_jsSetOfList (xs : List Int) (x : Int) : x ∈ jsSetOfList xs ↔ x ∈ xs := by
  unfold jsSetOfList
  rw [mem_foldl_insertUniqueInt]
  simp

theorem nodup_insertUniqueInt (acc : List Int) (y : Int) (h : acc.Nodup) :
    (insertUniqueInt acc y).Nodup := by
  unfold insertUniqueInt
  split
  · exact h
  · rename_i hy
    rw [List.nodup_append]
    refine ⟨h, List.nodup_singleton y, ?_⟩
    intro a ha hay
    rw [List.mem_singleton] at hay
    exact hy (hay ▸ ha)

theorem nodup_foldl_insertUniqueInt :
    ∀ (xs acc : List Int), acc.Nodup → (xs.foldl insertUniqueInt acc).Nodup := by
  intro xs
  induction xs with
  | nil => intro acc h; exact h
  | cons y ys ih => intro acc h; exact ih _ (nodup_insertUniqueInt acc y h)

theorem nodup_jsSetOfList (xs : List Int) : (jsSetOfList xs).Nodup :=
  nodup_foldl_insertUniqueInt xs [] List.nodup_nil

theorem Db.get_id (db : Db) (j : Int) (w : Webhook) (h : db.get j = some w) : w.id = j := by
  have := List.find?_some h
  simpa using this

theorem countP_filterMap_get_zero (db : Db) (i : Int) :
    ∀ ids : List Int, i ∉ ids →
      ((ids.filterMap db.get).countP fun w => w.id == i) = 0 := by
  intro ids
  induction ids with
  | nil => intro _; rfl
  | cons j js ih =>
      intro hni
      have hji : j ≠ i := fun h => hni (h ▸ List.mem_cons_self j js)
      have hnji : i ∉ js := fun h => hni (List.mem_cons_of_mem _ h)
      rw [List.filterMap_cons]
      cases hg : db.get j with
      | none => exact ih hnji
      | some w =>
          rw [List.countP_cons]
          have hw : (w.id == i) = false := by
            simp [Db.get_id db j w hg, hji]
          rw [hw, ih hnji]
          simp

theorem countP_filterMap_get_one (db : Db) (i : Int) :
    ∀ ids : List Int, ids.Nodup → i ∈ ids → (db.get i).isSome →
      ((ids.filterMap db.get).countP fun w => w.id == i) = 1 := by
  intro ids
  induction ids with
  | nil => intro _ h; cases h
  | cons j js ih =>
      intro hnd hmem hsome
      rw [List.filterMap_cons]
      rcases List.mem_cons.mp hmem with rfl | hmemjs
      · have hnotin : i ∉ js := (List.nodup_cons.mp hnd).1
        obtain ⟨w, hw⟩ := Option.isSome_iff_exists.mp hsome
        rw [hw, List.countP_cons]
        have hwid : (w.id == i) = true := by
          simp [Db.get_id db i w hw]
        rw [hwid, countP_filterMap_get_zero db i js hnotin]
        simp
      · have hnd2 := (List.nodup_cons.mp hnd).2
        have hji : j ≠ i := by
          rintro rfl
          exact (List.nodup_cons.mp hnd).1 hmemjs
        cases hg : db.get j with
        | none => exact ih hnd2 hmemjs hsome
        | some w =>
            rw [List.countP_cons]
            have hw : (w.id == i) = false := by
              simp [Db.get_id db j w hg, hji]
            rw [hw, ih hnd2 hmemjs hsome]
            simp

theorem countP_config_zero (ws : List ConfigWebhook) (sa sh : String) (i : Int)
    (hi : i ≠ -1) :
    ((ws.filterMap fun w =>
        if checkWebhookMatchesStatus w sa sh then
          some (⟨-1, w.type.getD .mastodon, w.url⟩ : Webhook)
        else none).countP fun w => w.id == i) = 0 := by
  rw [List.countP_eq_zero]
  intro a ha
  rcases List.mem_filterMap.mp ha with ⟨w, _, hw⟩
  by_cases hc : checkWebhookMatchesStatus w sa sh
  · rw [if_pos hc] at hw
    cases hw
    simp [Ne.symm hi]
  · rw [if_neg hc] at hw
    cases hw

/-- C7: an endpoint persisted in the `webhooks` table that is matched for a
status by both an acct-equality filter row and a host-equality filter row
appears exactly once in the routed set: the two matches are unioned into a
`Set` of webhook ids before the endpoints are looked up. -/
theorem c7_both_rules_once (config : Option ConfigData) (db : Db) (s : Status)
    (acct_host : String) (i : Int) (ra : FilterRuleAcct) (rh : FilterRuleHost)
    (hra : ra ∈ db.webhook_filter_acct) (hraid : ra.webhook_id = i)
    (hraacct : ra.acct = canonAcct s.account.acct acct_host)
    (hrh : rh ∈ db.webhook_filter_host) (hrhid : rh.webhook_id = i)
    (hrhhost : rh.host = acctHostOf s.account.acct acct_host)
    (hget : (db.get i).isSome) (hi : i ≠ -1) :
    ((getWebhooksForStatus config db s acct_host).countP fun w => w.id == i) = 1 := by
  unfold getWebhooksForStatus
  rw [List.countP_append]
  have hmem : i ∈ jsSetOfList
      ((db.webhook_filter_acct.filter fun r =>
          r.acct == canonAcct s.account.acct acct_host).map FilterRuleAcct.webhook_id ++
       (db.webhook_filter_host.filter fun r =>
          r.host == acctHostOf s.account.acct acct_host).map FilterRuleHost.webhook_id) := by
    rw [mem_jsSetOfList, List.mem_append]
    left
    rw [List.mem_map]
    refine ⟨ra, ?_, hraid⟩
    rw [List.mem_filter]
    exact ⟨hra, by simp [hraacct]⟩
  rw [countP_config_zero _ _ _ _ hi,
    countP_filterMap_get_one db i _ (nodup_jsSetOfList _) hmem hget]

/-- C7 (witness): a concrete run of `c7_both_rules_once` on
`dualRuleDb`. -/
theorem c7_both_rules_once_witness :
    ((getWebhooksForStatus none dualRuleDb remoteStatus "local.example").countP
      fun w => w.id == 7) = 1 :=
  c7_both_rules_once none dualRuleDb remoteStatus "local.example" 7
    ⟨1, 7, "alice@social.example"⟩ ⟨2, 7, "social.example"⟩
    (by decide) rfl (by decide) (by decide) rfl (by decide) (by decide) (by decide)

/-! ### C9: author display-name sanitization -/

/-- C9: the displayed author name is the display name with `:shortcode:`
tokens stripped, whitespace collapsed and trimmed, suffixed with
` - @` and the canonicalized handle; if that string contains "discord" it
is replaced by the canonical handle alone, or by "???" when the handle
itself contains "discord". -/
theorem c9_username_sanitization (td : String → String) (col : Account → Option Nat)
    (host : String) (s : Status) :
    (strIncludes (sanitizeDisplayName s.account.display_name ++ " - @" ++
        canonAcct s.account.acct host) "discord" = false →
      (formatPayload td col host s).username =
        sanitizeDisplayName s.account.display_name ++ " - @" ++
          canonAcct s.account.acct host) ∧
    (strIncludes (sanitizeDisplayName s.account.display_name ++ " - @" ++
        canonAcct s.account.acct host) "discord" = true →
      strIncludes (canonAcct s.account.acct host) "discord" = false →
      (formatPayload td col host s).username = "@" ++ canonAcct s.account.acct host) ∧
    (strIncludes (sanitizeDisplayName s.account.display_name ++ " - @" ++
        canonAcct s.account.acct host) "discord" = true →
      strIncludes (canonAcct s.account.acct host) "discord" = true →
      (formatPayload td col host s).username = "???") := by
  refine ⟨?_, ?_, ?_⟩
  · intro h1
    simp [formatPayload, h1]
  · intro h1 h2
    simp [formatPayload, h1, h2]
  · intro h1 h2
    simp [formatPayload, h1, h2]

/-- C9 (witness): concrete runs of `c9_username_sanitization`: shortcodes
and whitespace are stripped from `emojiAccount`'s display name, and the
"discord"-containing handle of `discordishAccount` forces "???". -/
theorem c9_username_sanitization_witness :
    (formatPayload (fun h => h) (fun _ => none) "social.example" emojiStatus).username =
      "Sam Smith - @sam@social.example" ∧
    (formatPayload (fun h => h) (fun _ => none) "social.example" discordishStatus).username =
      "???" := by
  constructor
  · exact (c9_username_sanitization (fun h => h) (fun _ => none) "social.example"
      emojiStatus).1 (by decide)
  · exact (c9_username_sanitization (fun h => h) (fun _ => none) "social.example"
      discordishStatus).2.2 (by decide) (by decide)

end MastodonWebhooks
